import Mathlib

/-!
Verification of the flight-delay predictor's distance core and form glue
(`app.py` plus the `distance_utils` module it imports).

The repository snapshot contains only `app.py`; the `distance_utils` module
(providing `AIRPORT_COORDS` and `get_distance_miles`) is imported there but its
source file is absent, so those two items are modelled from the specification's
description of them (section 4 of the spec).  Everything else is embedded from
`app.py` directly.  Python floats are modelled as real numbers.
-/

namespace FlightDelay

/-- Modelled from the spec: the static `AIRPORT_COORDS` table of the missing
`distance_utils` module, an immutable mapping from IATA code to
`(latitude, longitude)` in decimal degrees.  The spec pins down exactly two
concrete entries, `JFK = (40.6413, -73.7781)` and `LAX = (33.9416, -118.4085)`;
coordinates are stored as exact rationals here (the degree values are decimal
literals in the source). -/
def AIRPORT_COORDS : List (String × ℚ × ℚ) :=
  [("JFK", (40.6413, -73.7781)), ("LAX", (33.9416, -118.4085))]

/-- Modelled from the spec: degree-to-radian conversion, step 1 of the
haversine computation in the missing `distance_utils` module. -/
noncomputable def radians (deg : ℝ) : ℝ := deg * Real.pi / 180

/-- Modelled from the spec: the two-argument arctangent `atan2(y, x)` of
Python's `math` library, used in step 4 of the haversine computation of the
missing `distance_utils` module. -/
noncomputable def atan2 (y x : ℝ) : ℝ :=
  if 0 < x then Real.arctan (y / x)
  else if x = 0 then
    if 0 < y then Real.pi / 2 else if y < 0 then -(Real.pi / 2) else 0
  else if 0 ≤ y then Real.arctan (y / x) + Real.pi
  else Real.arctan (y / x) - Real.pi

/-- Modelled from the spec: steps 2 and 3 of the haversine computation of the
missing `distance_utils` module, the intermediate quantity
`a = sin²(Δlat/2) + cos(lat1)·cos(lat2)·sin²(Δlon/2)` on the radian-converted
coordinates. -/
noncomputable def hav_a (lat1 lon1 lat2 lon2 : ℝ) : ℝ :=
  Real.sin (radians (lat2 - lat1) / 2) ^ 2 +
    Real.cos (radians lat1) * Real.cos (radians lat2) *
      Real.sin (radians (lon2 - lon1) / 2) ^ 2

/-- Modelled from the spec: the haversine great-circle distance in miles of the
missing `distance_utils` module, steps 4 and 5: `c = 2·atan2(√a, √(1−a))` and
`distance = R·c` with the fixed mean Earth radius R = 3958.8 miles. -/
noncomputable def haversine_miles (lat1 lon1 lat2 lon2 : ℝ) : ℝ :=
  3958.8 * (2 * atan2 (Real.sqrt (hav_a lat1 lon1 lat2 lon2))
    (Real.sqrt (1 - hav_a lat1 lon1 lat2 lon2)))

/-- Modelled from the spec: `get_distance_miles` of the missing
`distance_utils` module, generalized over the coordinate table it reads: look
up both codes, return `none` if either is absent, otherwise the haversine
distance. -/
noncomputable def get_distance_miles_from (table : List (String × ℚ × ℚ))
    (origin dest : String) : Option ℝ :=
  match table.lookup origin, table.lookup dest with
  | some (lat1, lon1), some (lat2, lon2) =>
      some (haversine_miles (lat1 : ℝ) (lon1 : ℝ) (lat2 : ℝ) (lon2 : ℝ))
  | _, _ => none

/-- Modelled from the spec: `get_distance_miles` / `distanceMiles` reading the
static `AIRPORT_COORDS` table. -/
noncomputable def get_distance_miles (origin dest : String) : Option ℝ :=
  get_distance_miles_from AIRPORT_COORDS origin dest

/-- Modelled from the spec: one call of `get_distance_miles` seen as a state
transformer over the process-wide coordinate table, returning the result
together with the table as it stands after the call (the function only reads
the table). -/
noncomputable def get_distance_miles_call (table : List (String × ℚ × ℚ))
    (origin dest : String) : Option ℝ × List (String × ℚ × ℚ) :=
  (get_distance_miles_from table origin dest, table)

/-- From `src/app.py` line 61: the selectable airport list, the intersection of
the origin encoder's classes with the keys of `AIRPORT_COORDS` (sorting does
not affect membership and is omitted). -/
def valid_iata (classes : List String) : List String :=
  classes.inter (AIRPORT_COORDS.map Prod.fst)

/-- From `src/app.py` line 75: the departure time feature
`dep_time = hour * 100 + minute`. -/
def dep_time_of (hour minute : ℕ) : ℕ := hour * 100 + minute

/-- From `src/app.py` line 101: the derived feature `DepHour = DepTime // 100`. -/
def depHour (dep_time : ℕ) : ℕ := dep_time / 100

/-- The flight details collected by the sidebar form of `src/app.py`
(lines 57-84). -/
structure FlightInput where
  dep_time : ℕ
  crs_etime : ℕ
  dow : ℕ
  month : ℕ
  day : ℕ
  carrier : String
  origin : String
  dest : String

/-- The three pre-trained models of `src/app.py` (lines 42-47), treated as
external collaborators with a fixed input/output contract: a binary delay
classifier with its probability output, a delay-duration regressor and a
delay-cause classifier.  The regressor and cause model also receive the
distance feature. -/
structure Models where
  binaryPredict : FlightInput → ℕ
  binaryProba : FlightInput → ℚ
  regPredict : FlightInput → Option ℝ → ℚ
  causePredict : FlightInput → Option ℝ → String

/-- What the tab1 prediction flow renders for one submitted request. -/
structure PredResult where
  delayed : ℕ
  proba : ℚ
  est : Option ℚ
  cause : Option String

/-- From `src/app.py` lines 90-147: the tab1 prediction flow.  The binary
classifier always runs; the delay-duration regressor and the delay-cause
classifier run (and their results are rendered) only inside the
`if delayed == 1` branch. -/
def run_tab1 (m : Models) (inp : FlightInput) (distance : Option ℝ) : PredResult :=
  let delayed := m.binaryPredict inp
  let proba := m.binaryProba inp
  if delayed = 1 then
    { delayed := delayed, proba := proba,
      est := some (m.regPredict inp distance),
      cause := some (m.causePredict inp distance) }
  else
    { delayed := delayed, proba := proba, est := none, cause := none }

/-- A concrete flight input used in witnesses. -/
def inp0 : FlightInput :=
  { dep_time := 1200, crs_etime := 120, dow := 3, month := 5, day := 14,
    carrier := "AA", origin := "JFK", dest := "LAX" }

/-- A concrete model triple whose binary classifier always predicts on-time. -/
def m0 : Models :=
  { binaryPredict := fun _ => 0, binaryProba := fun _ => 1/2,
    regPredict := fun _ _ => 30, causePredict := fun _ _ => "CarrierDelay" }

/-- A concrete model triple whose binary classifier always predicts a delay. -/
def m1 : Models :=
  { binaryPredict := fun _ => 1, binaryProba := fun _ => 1/2,
    regPredict := fun _ _ => 30, causePredict := fun _ _ => "CarrierDelay" }

/-! ### Helper lemmas -/

/-- A key that occurs among the keys of an association list is found by
`List.lookup`. -/
lemma lookup_isSome_of_mem_keys {l : List (String × ℚ × ℚ)} {a : String}
    (h : a ∈ l.map Prod.fst) : (l.lookup a).isSome = true := by
  induction l with
  | nil => simp at h
  | cons kv t ih =>
    obtain ⟨k, v⟩ := kv
    rw [List.map_cons, List.mem_cons] at h
    by_cases hk : a = k
    · have hbeq : (a == k) = true := by simp [hk]
      have hstep : List.lookup a ((k, v) :: t) = some v := by
        simp [List.lookup, hbeq]
      simp [hstep]
    · have ht : a ∈ t.map Prod.fst := by
        rcases h with h | h
        · exact absurd h hk
        · exact h
      have hbeq : (a == k) = false := by simp [hk]
      have hstep : List.lookup a ((k, v) :: t) = List.lookup a t := by
        simp [List.lookup, hbeq]
      rw [hstep]
      exact ih ht

/-- A successful `List.lookup` finds an entry of the list, keyed by the
looked-up string. -/
lemma mem_of_lookup_eq_some {l : List (String × ℚ × ℚ)} {a : String} {b : ℚ × ℚ}
    (h : l.lookup a = some b) : (a, b) ∈ l := by
  induction l with
  | nil => simp [List.lookup] at h
  | cons kv t ih =>
    obtain ⟨k, v⟩ := kv
    by_cases hk : a = k
    · have hbeq : (a == k) = true := by simp [hk]
      have hstep : List.lookup a ((k, v) :: t) = some v := by
        simp [List.lookup, hbeq]
      rw [hstep] at h
      have hv : v = b := Option.some.inj h
      subst hv
      subst hk
      exact List.mem_cons_self _ _
    · have hbeq : (a == k) = false := by simp [hk]
      have hstep : List.lookup a ((k, v) :: t) = List.lookup a t := by
        simp [List.lookup, hbeq]
      rw [hstep] at h
      exact List.mem_cons_of_mem _ (ih h)

/-- `atan2` is nonnegative whenever its first argument is. -/
lemma atan2_nonneg (y x : ℝ) (hy : 0 ≤ y) : 0 ≤ atan2 y x := by
  have harct : ∀ z : ℝ, 0 ≤ z → 0 ≤ Real.arctan z := by
    intro z hz
    have := Real.arctan_strictMono.monotone hz
    rwa [Real.arctan_zero] at this
  unfold atan2
  split_ifs with h1 h2 h3 h4
  all_goals
    first
    | exact harct _ (div_nonneg hy h1.le)
    | linarith [Real.pi_pos]
    | linarith [Real.neg_pi_div_two_lt_arctan (y / x), Real.pi_pos]

/-- The haversine distance is nonnegative for any coordinates. -/
lemma haversine_nonneg (lat1 lon1 lat2 lon2 : ℝ) :
    0 ≤ haversine_miles lat1 lon1 lat2 lon2 := by
  unfold haversine_miles
  have h := atan2_nonneg (Real.sqrt (hav_a lat1 lon1 lat2 lon2))
    (Real.sqrt (1 - hav_a lat1 lon1 lat2 lon2)) (Real.sqrt_nonneg _)
  nlinarith

/-- At identical coordinates the haversine distance is exactly zero. -/
lemma haversine_diag (lat lon : ℝ) : haversine_miles lat lon lat lon = 0 := by
  have ha : hav_a lat lon lat lon = 0 := by
    unfold hav_a radians
    simp [sub_self]
  unfold haversine_miles
  rw [ha]
  rw [Real.sqrt_zero, sub_zero, Real.sqrt_one]
  unfold atan2
  rw [if_pos one_pos]
  simp [Real.arctan_zero]

/-- The haversine distance is symmetric in its two coordinate pairs. -/
lemma haversine_comm (lat1 lon1 lat2 lon2 : ℝ) :
    haversine_miles lat1 lon1 lat2 lon2 = haversine_miles lat2 lon2 lat1 lon1 := by
  have ha : hav_a lat2 lon2 lat1 lon1 = hav_a lat1 lon1 lat2 lon2 := by
    unfold hav_a radians
    have e1 : (lat1 - lat2) * Real.pi / 180 / 2 =
        -((lat2 - lat1) * Real.pi / 180 / 2) := by ring
    have e2 : (lon1 - lon2) * Real.pi / 180 / 2 =
        -((lon2 - lon1) * Real.pi / 180 / 2) := by ring
    rw [e1, e2, Real.sin_neg, Real.sin_neg]
    ring
  unfold haversine_miles
  rw [ha]

/-! ### Claims -/

/-- C2: for every pair of input codes where at least one code is not in the
coordinate table, `get_distance_miles` returns the explicit absent value
`none` (and, being a total function, never raises). -/
theorem distance_unknown_code_none (origin dest : String)
    (h : AIRPORT_COORDS.lookup origin = none ∨ AIRPORT_COORDS.lookup dest = none) :
    get_distance_miles origin dest = none := by
  unfold get_distance_miles get_distance_miles_from
  rcases h with h | h
  · rw [h]
  · rw [h]
    cases AIRPORT_COORDS.lookup origin with
    | none => rfl
    | some p => obtain ⟨la, lo⟩ := p; rfl

/-- Witness for C2 at the spec's concrete scenario: `ZZZ` is unknown, so
`distanceMiles("JFK", "ZZZ")` is absent. -/
theorem distance_unknown_code_none_witness :
    (AIRPORT_COORDS.lookup "JFK" = none ∨ AIRPORT_COORDS.lookup "ZZZ" = none) ∧
      get_distance_miles "JFK" "ZZZ" = none :=
  ⟨Or.inr rfl, distance_unknown_code_none "JFK" "ZZZ" (Or.inr rfl)⟩

/-- C8: `distanceMiles` is a pure, deterministic function of its two input
codes and the static table: a call leaves the table unchanged, a second call
with the same inputs (against the table state left by the first call) returns
the same result, and the call's result is exactly `get_distance_miles`. -/
theorem distance_pure_deterministic (origin dest : String) :
    (get_distance_miles_call AIRPORT_COORDS origin dest).2 = AIRPORT_COORDS ∧
    (get_distance_miles_call
        (get_distance_miles_call AIRPORT_COORDS origin dest).2 origin dest).1 =
      (get_distance_miles_call AIRPORT_COORDS origin dest).1 ∧
    (get_distance_miles_call AIRPORT_COORDS origin dest).1 =
      get_distance_miles origin dest :=
  ⟨rfl, rfl, rfl⟩

/-- C10: the `DepTime` feature `hour*100 + minute` always lies in `[0, 2359]`
for a form time (hour ≤ 23, minute ≤ 59), and `DepHour = DepTime // 100`
recovers the selected hour exactly. -/
theorem dep_time_round_trip (hour minute : ℕ)
    (hh : hour ≤ 23) (hm : minute ≤ 59) :
    dep_time_of hour minute ≤ 2359 ∧ depHour (dep_time_of hour minute) = hour := by
  unfold dep_time_of depHour
  omega

/-- Witness for C10 at hour 12, minute 59. -/
theorem dep_time_round_trip_witness :
    12 ≤ 23 ∧ 59 ≤ 59 ∧
      (dep_time_of 12 59 ≤ 2359 ∧ depHour (dep_time_of 12 59) = 12) :=
  ⟨by decide, by decide, dep_time_round_trip 12 59 (by decide) (by decide)⟩

/-- C7 counterexample: it is not the case that every submitted request runs
(and renders) all three models; when the binary classifier predicts on-time
(as the concrete model `m0` always does), the regressor and the cause
classifier never run. -/
theorem three_models_claim_false :
    ¬ (∀ (m : Models) (inp : FlightInput) (dist : Option ℝ),
        ((run_tab1 m inp dist).est).isSome = true ∧
        ((run_tab1 m inp dist).cause).isSome = true) := by
  intro h
  have h0 := (h m0 inp0 none).1
  simp [run_tab1, m0] at h0

/-- C7 (amended): the binary classifier runs on every submitted request; the
delay-duration regressor and the delay-cause classifier run, in sequence, and
have their results rendered exactly when the binary classifier predicts a
delay, and do not run otherwise. -/
theorem tab1_runs_models_iff_delayed
    (m : Models) (inp : FlightInput) (dist : Option ℝ) :
    (run_tab1 m inp dist).delayed = m.binaryPredict inp ∧
    (run_tab1 m inp dist).proba = m.binaryProba inp ∧
    (m.binaryPredict inp = 1 →
      (run_tab1 m inp dist).est = some (m.regPredict inp dist) ∧
      (run_tab1 m inp dist).cause = some (m.causePredict inp dist)) ∧
    (m.binaryPredict inp ≠ 1 →
      (run_tab1 m inp dist).est = none ∧ (run_tab1 m inp dist).cause = none) := by
  unfold run_tab1
  by_cases h : m.binaryPredict inp = 1 <;> simp [h]

/-- Witness for C7 (amended) at the always-delayed model `m1`. -/
theorem tab1_runs_models_iff_delayed_witness :
    (run_tab1 m1 inp0 none).est = some (m1.regPredict inp0 none) ∧
    (run_tab1 m1 inp0 none).cause = some (m1.causePredict inp0 none) :=
  (tab1_runs_models_iff_delayed m1 inp0 none).2.2.1 rfl

/-- C9: every origin and destination selectable from `valid_iata` has a
coordinate entry, so the distance fed to the regressor and cause model is
never `none` and the "Distance not available" branch is unreachable. -/
theorem valid_iata_distance_some (classes : List String) (origin dest : String)
    (ho : origin ∈ valid_iata classes) (hd : dest ∈ valid_iata classes) :
    (get_distance_miles origin dest).isSome = true := by
  have hok : origin ∈ AIRPORT_COORDS.map Prod.fst :=
    (List.mem_inter_iff.mp ho).2
  have hdk : dest ∈ AIRPORT_COORDS.map Prod.fst :=
    (List.mem_inter_iff.mp hd).2
  obtain ⟨p, hp⟩ := Option.isSome_iff_exists.mp (lookup_isSome_of_mem_keys hok)
  obtain ⟨q, hq⟩ := Option.isSome_iff_exists.mp (lookup_isSome_of_mem_keys hdk)
  obtain ⟨la, lo⟩ := p
  obtain ⟨lb, lo2⟩ := q
  unfold get_distance_miles get_distance_miles_from
  rw [hp, hq]
  rfl

/-- Witness for C9: with encoder classes `["LAX", "ZZZ", "JFK"]`, both `JFK`
and `LAX` are selectable and the distance is present. -/
theorem valid_iata_distance_some_witness :
    "JFK" ∈ valid_iata ["LAX", "ZZZ", "JFK"] ∧
    "LAX" ∈ valid_iata ["LAX", "ZZZ", "JFK"] ∧
    (get_distance_miles "JFK" "LAX").isSome = true :=
  ⟨by decide, by decide,
    valid_iata_distance_some ["LAX", "ZZZ", "JFK"] "JFK" "LAX"
      (by decide) (by decide)⟩

/-- C6: every lookup that succeeds returns a coordinate with latitude in
`[-90, 90]` and longitude in `[-180, 180]`; the range invariant holds for
every entry of the static table. -/
theorem lookup_coords_in_range (code : String) (lat lon : ℚ)
    (h : AIRPORT_COORDS.lookup code = some (lat, lon)) :
    (-90 ≤ lat ∧ lat ≤ 90) ∧ (-180 ≤ lon ∧ lon ≤ 180) := by
  have hin := mem_of_lookup_eq_some h
  have hall : ∀ p ∈ AIRPORT_COORDS,
      (-90 ≤ p.2.1 ∧ p.2.1 ≤ 90) ∧ (-180 ≤ p.2.2 ∧ p.2.2 ≤ 180) := by
    intro p hp
    simp only [AIRPORT_COORDS, List.mem_cons, List.not_mem_nil, or_false] at hp
    rcases hp with rfl | rfl <;> norm_num
  exact hall _ hin

/-- Witness for C6 at `JFK`. -/
theorem lookup_coords_in_range_witness :
    AIRPORT_COORDS.lookup "JFK" = some (40.6413, -73.7781) ∧
      ((-90 ≤ (40.6413 : ℚ) ∧ (40.6413 : ℚ) ≤ 90) ∧
        (-180 ≤ (-73.7781 : ℚ) ∧ (-73.7781 : ℚ) ≤ 180)) :=
  ⟨rfl, lookup_coords_in_range "JFK" 40.6413 (-73.7781) rfl⟩

/-- C1: for every pair of codes both present in the coordinate table,
`get_distance_miles` returns the haversine great-circle distance: degrees are
converted to radians, `a = sin²(Δlat/2) + cos(lat1)·cos(lat2)·sin²(Δlon/2)`,
`c = 2·atan2(√a, √(1−a))`, and the result is `R·c` with R fixed at 3958.8
miles. -/
theorem distance_is_haversine (origin dest : String) (lat1 lon1 lat2 lon2 : ℚ)
    (h1 : AIRPORT_COORDS.lookup origin = some (lat1, lon1))
    (h2 : AIRPORT_COORDS.lookup dest = some (lat2, lon2)) :
    get_distance_miles origin dest =
      some (3958.8 * (2 * atan2
        (Real.sqrt (Real.sin (((lat2 : ℝ) - (lat1 : ℝ)) * Real.pi / 180 / 2) ^ 2 +
          Real.cos ((lat1 : ℝ) * Real.pi / 180) * Real.cos ((lat2 : ℝ) * Real.pi / 180) *
          Real.sin (((lon2 : ℝ) - (lon1 : ℝ)) * Real.pi / 180 / 2) ^ 2))
        (Real.sqrt (1 - (Real.sin (((lat2 : ℝ) - (lat1 : ℝ)) * Real.pi / 180 / 2) ^ 2 +
          Real.cos ((lat1 : ℝ) * Real.pi / 180) * Real.cos ((lat2 : ℝ) * Real.pi / 180) *
          Real.sin (((lon2 : ℝ) - (lon1 : ℝ)) * Real.pi / 180 / 2) ^ 2))))) := by
  unfold get_distance_miles get_distance_miles_from
  rw [h1, h2]
  unfold haversine_miles hav_a radians
  rfl

/-- Witness for C1 at the two concrete table entries. -/
theorem distance_is_haversine_witness :
    AIRPORT_COORDS.lookup "JFK" = some (40.6413, -73.7781) ∧
    AIRPORT_COORDS.lookup "LAX" = some (33.9416, -118.4085) ∧
    get_distance_miles "JFK" "LAX" =
      some (3958.8 * (2 * atan2
        (Real.sqrt (Real.sin ((((33.9416 : ℚ) : ℝ) - ((40.6413 : ℚ) : ℝ)) * Real.pi / 180 / 2) ^ 2 +
          Real.cos (((40.6413 : ℚ) : ℝ) * Real.pi / 180) *
            Real.cos (((33.9416 : ℚ) : ℝ) * Real.pi / 180) *
          Real.sin ((((-118.4085 : ℚ) : ℝ) - ((-73.7781 : ℚ) : ℝ)) * Real.pi / 180 / 2) ^ 2))
        (Real.sqrt (1 - (Real.sin ((((33.9416 : ℚ) : ℝ) - ((40.6413 : ℚ) : ℝ)) * Real.pi / 180 / 2) ^ 2 +
          Real.cos (((40.6413 : ℚ) : ℝ) * Real.pi / 180) *
            Real.cos (((33.9416 : ℚ) : ℝ) * Real.pi / 180) *
          Real.sin ((((-118.4085 : ℚ) : ℝ) - ((-73.7781 : ℚ) : ℝ)) * Real.pi / 180 / 2) ^ 2))))) :=
  ⟨rfl, rfl,
    distance_is_haversine "JFK" "LAX" 40.6413 (-73.7781) 33.9416 (-118.4085) rfl rfl⟩

/-- C3: the distance is symmetric: for known codes `A`, `B`,
`distanceMiles(A, B) = distanceMiles(B, A)` (exactly, in the real model, hence
within any floating-point tolerance). -/
theorem distance_symm (A B : String)
    (hA : (AIRPORT_COORDS.lookup A).isSome = true)
    (hB : (AIRPORT_COORDS.lookup B).isSome = true) :
    get_distance_miles A B = get_distance_miles B A := by
  obtain ⟨p, h1⟩ := Option.isSome_iff_exists.mp hA
  obtain ⟨q, h2⟩ := Option.isSome_iff_exists.mp hB
  obtain ⟨la, lo1⟩ := p
  obtain ⟨lb, lo2⟩ := q
  unfold get_distance_miles get_distance_miles_from
  rw [h1, h2]
  exact congrArg some (haversine_comm _ _ _ _)

/-- Witness for C3 at `JFK`, `LAX`. -/
theorem distance_symm_witness :
    (AIRPORT_COORDS.lookup "JFK").isSome = true ∧
    (AIRPORT_COORDS.lookup "LAX").isSome = true ∧
    get_distance_miles "JFK" "LAX" = get_distance_miles "LAX" "JFK" :=
  ⟨rfl, rfl, distance_symm "JFK" "LAX" rfl rfl⟩

/-- C4: every distance the calculator returns is nonnegative, and for a code
paired with itself the distance is (exactly) zero, in particular within the
0.01-mile tolerance. -/
theorem distance_nonneg_and_diag_zero (A B : String) (r : ℝ)
    (h : get_distance_miles A B = some r) :
    0 ≤ r ∧ (A = B → |r| ≤ 0.01) := by
  unfold get_distance_miles get_distance_miles_from at h
  cases hA : AIRPORT_COORDS.lookup A with
  | none => rw [hA] at h; cases AIRPORT_COORDS.lookup B with
    | none => simp at h
    | some q => obtain ⟨lb, lo2⟩ := q; simp at h
  | some p =>
    obtain ⟨la, lo1⟩ := p
    rw [hA] at h
    cases hB : AIRPORT_COORDS.lookup B with
    | none => rw [hB] at h; simp at h
    | some q =>
      obtain ⟨lb, lo2⟩ := q
      rw [hB] at h
      have hr : r = haversine_miles (la : ℝ) (lo1 : ℝ) (lb : ℝ) (lo2 : ℝ) :=
        (Option.some.inj h).symm
      constructor
      · rw [hr]; exact haversine_nonneg _ _ _ _
      · intro hab
        subst hab
        rw [hA] at hB
        obtain ⟨h3, h4⟩ : lb = la ∧ lo2 = lo1 := by
          have := Option.some.inj hB
          exact ⟨(congrArg Prod.fst this).symm, (congrArg (fun p => p.2) this).symm⟩
        subst h3; subst h4
        rw [hr, haversine_diag]
        norm_num

/-- Witness for C4 at `A = B = "JFK"`. -/
theorem distance_nonneg_and_diag_zero_witness :
    0 ≤ haversine_miles ((40.6413 : ℚ) : ℝ) ((-73.7781 : ℚ) : ℝ)
        ((40.6413 : ℚ) : ℝ) ((-73.7781 : ℚ) : ℝ) ∧
    |haversine_miles ((40.6413 : ℚ) : ℝ) ((-73.7781 : ℚ) : ℝ)
        ((40.6413 : ℚ) : ℝ) ((-73.7781 : ℚ) : ℝ)| ≤ 0.01 :=
  ⟨(distance_nonneg_and_diag_zero "JFK" "JFK" _ rfl).1,
    (distance_nonneg_and_diag_zero "JFK" "JFK" _ rfl).2 rfl⟩

/-! ### Verified interval bounds for the concrete JFK-LAX distance (C5)

Rational lower/upper bounds on the trigonometric quantities entering the
haversine value for the JFK and LAX coordinates, built from the order-3 Taylor
bounds `Real.sin_bound` / `Real.cos_bound` on small base angles and the
double-angle identities. -/

/-- Taylor interval bound for `sin` on `[lo, hi] ⊆ [0, 1]`. -/
lemma sin_lb_ub {x lo hi : ℝ} (h1 : lo ≤ x) (h2 : x ≤ hi)
    (h0 : 0 ≤ lo) (hle : hi ≤ 1) :
    lo - hi ^ 3 / 6 - hi ^ 4 * (5 / 96) ≤ Real.sin x ∧
      Real.sin x ≤ hi - lo ^ 3 / 6 + hi ^ 4 * (5 / 96) := by
  have hx0 : 0 ≤ x := le_trans h0 h1
  have habs : |x| ≤ 1 := by
    rw [abs_of_nonneg hx0]; linarith
  have hb := Real.sin_bound habs
  rw [abs_of_nonneg hx0, abs_le] at hb
  have p3 : x ^ 3 ≤ hi ^ 3 := pow_le_pow_left₀ hx0 h2 3
  have p3l : lo ^ 3 ≤ x ^ 3 := pow_le_pow_left₀ h0 h1 3
  have p4 : x ^ 4 ≤ hi ^ 4 := pow_le_pow_left₀ hx0 h2 4
  have p40 : (0 : ℝ) ≤ x ^ 4 := by positivity
  constructor <;> linarith [hb.1, hb.2]

/-- Taylor interval bound for `cos` on `[lo, hi] ⊆ [0, 1]`. -/
lemma cos_lb_ub {x lo hi : ℝ} (h1 : lo ≤ x) (h2 : x ≤ hi)
    (h0 : 0 ≤ lo) (hle : hi ≤ 1) :
    1 - hi ^ 2 / 2 - hi ^ 4 * (5 / 96) ≤ Real.cos x ∧
      Real.cos x ≤ 1 - lo ^ 2 / 2 + hi ^ 4 * (5 / 96) := by
  have hx0 : 0 ≤ x := le_trans h0 h1
  have habs : |x| ≤ 1 := by
    rw [abs_of_nonneg hx0]; linarith
  have hb := Real.cos_bound habs
  rw [abs_of_nonneg hx0, abs_le] at hb
  have p2 : x ^ 2 ≤ hi ^ 2 := pow_le_pow_left₀ hx0 h2 2
  have p2l : lo ^ 2 ≤ x ^ 2 := pow_le_pow_left₀ h0 h1 2
  have p4 : x ^ 4 ≤ hi ^ 4 := pow_le_pow_left₀ hx0 h2 4
  have p40 : (0 : ℝ) ≤ x ^ 4 := by positivity
  constructor <;> linarith [hb.1, hb.2]

/-- Interval bound for `sin (2t)` from nonnegative bounds on `sin t`,
`cos t`. -/
lemma sin_double_lb_ub {t ls us lc uc : ℝ}
    (hs1 : ls ≤ Real.sin t) (hs2 : Real.sin t ≤ us)
    (hc1 : lc ≤ Real.cos t) (hc2 : Real.cos t ≤ uc)
    (h0s : 0 ≤ ls) (h0c : 0 ≤ lc) :
    2 * (ls * lc) ≤ Real.sin (2 * t) ∧ Real.sin (2 * t) ≤ 2 * (us * uc) := by
  rw [Real.sin_two_mul]
  constructor <;> nlinarith

/-- Interval bound for `cos (2t)` from a nonnegative bound on `sin t`. -/
lemma cos_double_lb_ub {t ls us : ℝ}
    (hs1 : ls ≤ Real.sin t) (hs2 : Real.sin t ≤ us) (h0s : 0 ≤ ls) :
    1 - 2 * us ^ 2 ≤ Real.cos (2 * t) ∧ Real.cos (2 * t) ≤ 1 - 2 * ls ^ 2 := by
  have hid := Real.cos_two_mul t
  have hpy := Real.sin_sq_add_cos_sq t
  constructor <;> nlinarith

lemma angLam8 : (0.048684204 : ℝ) ≤ (44.6304 : ℝ) * Real.pi / 2880 ∧ (44.6304 : ℝ) * Real.pi / 2880 ≤ (0.0486842196 : ℝ) := by
  have h1 := Real.pi_gt_d6
  have h2 := Real.pi_lt_d6
  constructor
  · nlinarith
  · nlinarith

lemma sinLam8 : (0.0486646799 : ℝ) ≤ Real.sin ((44.6304 : ℝ) * Real.pi / 2880) ∧ Real.sin ((44.6304 : ℝ) * Real.pi / 2880) ≤ (0.0486652807 : ℝ) := by
  have h := sin_lb_ub angLam8.1 angLam8.2 (by norm_num) (by norm_num)
  exact ⟨le_trans (by norm_num) h.1, le_trans h.2 (by norm_num)⟩

lemma cosLam8 : (0.9988146307 : ℝ) ≤ Real.cos ((44.6304 : ℝ) * Real.pi / 2880) ∧ Real.cos ((44.6304 : ℝ) * Real.pi / 2880) ≤ (0.9988152168 : ℝ) := by
  have h := cos_lb_ub angLam8.1 angLam8.2 (by norm_num) (by norm_num)
  exact ⟨le_trans (by norm_num) h.1, le_trans h.2 (by norm_num)⟩

lemma sinLam4 : (0.0972139885 : ℝ) ≤ Real.sin ((44.6304 : ℝ) * Real.pi / 1440) ∧ Real.sin ((44.6304 : ℝ) * Real.pi / 1440) ≤ (0.0972152458 : ℝ) := by
  have e : ((44.6304 : ℝ) * Real.pi / 1440) = 2 * ((44.6304 : ℝ) * Real.pi / 2880) := by ring
  rw [e]
  have h := sin_double_lb_ub sinLam8.1 sinLam8.2 cosLam8.1 cosLam8.2 (by norm_num) (by norm_num)
  exact ⟨le_trans (by norm_num) h.1, le_trans h.2 (by norm_num)⟩

lemma cosLam4 : (0.9952633809 : ℝ) ≤ Real.cos ((44.6304 : ℝ) * Real.pi / 1440) ∧ Real.cos ((44.6304 : ℝ) * Real.pi / 1440) ≤ (0.9952634979 : ℝ) := by
  have e : ((44.6304 : ℝ) * Real.pi / 1440) = 2 * ((44.6304 : ℝ) * Real.pi / 2880) := by ring
  rw [e]
  have h := cos_double_lb_ub sinLam8.1 sinLam8.2 (by norm_num)
  exact ⟨le_trans (by norm_num) h.1, le_trans h.2 (by norm_num)⟩

lemma sinLam2 : (0.1935070457 : ℝ) ≤ Real.sin ((44.6304 : ℝ) * Real.pi / 720) ∧ Real.sin ((44.6304 : ℝ) * Real.pi / 720) ≤ (0.1935095712 : ℝ) := by
  have e : ((44.6304 : ℝ) * Real.pi / 720) = 2 * ((44.6304 : ℝ) * Real.pi / 1440) := by ring
  rw [e]
  have h := sin_double_lb_ub sinLam4.1 sinLam4.2 cosLam4.1 cosLam4.2 (by norm_num) (by norm_num)
  exact ⟨le_trans (by norm_num) h.1, le_trans h.2 (by norm_num)⟩

lemma cosLam2 : (0.9810983919 : ℝ) ≤ Real.cos ((44.6304 : ℝ) * Real.pi / 720) ∧ Real.cos ((44.6304 : ℝ) * Real.pi / 720) ≤ (0.9810988809 : ℝ) := by
  have e : ((44.6304 : ℝ) * Real.pi / 720) = 2 * ((44.6304 : ℝ) * Real.pi / 1440) := by ring
  rw [e]
  have h := cos_double_lb_ub sinLam4.1 sinLam4.2 (by norm_num)
  exact ⟨le_trans (by norm_num) h.1, le_trans h.2 (by norm_num)⟩

lemma sinLam1 : (0.3796989027 : ℝ) ≤ Real.sin ((44.6304 : ℝ) * Real.pi / 360) ∧ Real.sin ((44.6304 : ℝ) * Real.pi / 360) ≤ (0.3797040475 : ℝ) := by
  have e : ((44.6304 : ℝ) * Real.pi / 360) = 2 * ((44.6304 : ℝ) * Real.pi / 720) := by ring
  rw [e]
  have h := sin_double_lb_ub sinLam2.1 sinLam2.2 cosLam2.1 cosLam2.2 (by norm_num) (by norm_num)
  exact ⟨le_trans (by norm_num) h.1, le_trans h.2 (by norm_num)⟩

lemma angP18 : (0.0886655437 : ℝ) ≤ (40.6413 : ℝ) * Real.pi / 1440 ∧ (40.6413 : ℝ) * Real.pi / 1440 ≤ (0.088665572 : ℝ) := by
  have h1 := Real.pi_gt_d6
  have h2 := Real.pi_lt_d6
  constructor
  · nlinarith
  · nlinarith

lemma sinP18 : (0.0885461494 : ℝ) ≤ Real.sin ((40.6413 : ℝ) * Real.pi / 1440) ∧ Real.sin ((40.6413 : ℝ) * Real.pi / 1440) ≤ (0.0885526158 : ℝ) := by
  have h := sin_lb_ub angP18.1 angP18.2 (by norm_num) (by norm_num)
  exact ⟨le_trans (by norm_num) h.1, le_trans h.2 (by norm_num)⟩

lemma cosP18 : (0.9960659891 : ℝ) ≤ Real.cos ((40.6413 : ℝ) * Real.pi / 1440) ∧ Real.cos ((40.6413 : ℝ) * Real.pi / 1440) ≤ (0.9960724297 : ℝ) := by
  have h := cos_lb_ub angP18.1 angP18.2 (by norm_num) (by norm_num)
  exact ⟨le_trans (by norm_num) h.1, le_trans h.2 (by norm_num)⟩

lemma sinP14 : (0.1763956157 : ℝ) ≤ Real.sin ((40.6413 : ℝ) * Real.pi / 720) ∧ Real.sin ((40.6413 : ℝ) * Real.pi / 720) ≤ (0.1764096384 : ℝ) := by
  have e : ((40.6413 : ℝ) * Real.pi / 720) = 2 * ((40.6413 : ℝ) * Real.pi / 1440) := by ring
  rw [e]
  have h := sin_double_lb_ub sinP18.1 sinP18.2 cosP18.1 cosP18.2 (by norm_num) (by norm_num)
  exact ⟨le_trans (by norm_num) h.1, le_trans h.2 (by norm_num)⟩

lemma cosP14 : (0.9843168684 : ℝ) ≤ Real.cos ((40.6413 : ℝ) * Real.pi / 720) ∧ Real.cos ((40.6413 : ℝ) * Real.pi / 720) ≤ (0.9843191589 : ℝ) := by
  have e : ((40.6413 : ℝ) * Real.pi / 720) = 2 * ((40.6413 : ℝ) * Real.pi / 1440) := by ring
  rw [e]
  have h := cos_double_lb_ub sinP18.1 sinP18.2 (by norm_num)
  exact ⟨le_trans (by norm_num) h.1, le_trans h.2 (by norm_num)⟩

lemma sinP12 : (0.34725836 : ℝ) ≤ Real.sin ((40.6413 : ℝ) * Real.pi / 360) ∧ Real.sin ((40.6413 : ℝ) * Real.pi / 360) ≤ (0.3472867738 : ℝ) := by
  have e : ((40.6413 : ℝ) * Real.pi / 360) = 2 * ((40.6413 : ℝ) * Real.pi / 720) := by ring
  rw [e]
  have h := sin_double_lb_ub sinP14.1 sinP14.2 cosP14.1 cosP14.2 (by norm_num) (by norm_num)
  exact ⟨le_trans (by norm_num) h.1, le_trans h.2 (by norm_num)⟩

lemma cosP1 : (0.7587837934 : ℝ) ≤ Real.cos ((40.6413 : ℝ) * Real.pi / 180) ∧ Real.cos ((40.6413 : ℝ) * Real.pi / 180) ≤ (0.7588232629 : ℝ) := by
  have e : ((40.6413 : ℝ) * Real.pi / 180) = 2 * ((40.6413 : ℝ) * Real.pi / 360) := by ring
  rw [e]
  have h := cos_double_lb_ub sinP12.1 sinP12.2 (by norm_num)
  exact ⟨le_trans (by norm_num) h.1, le_trans h.2 (by norm_num)⟩

lemma angP28 : (0.0740490687 : ℝ) ≤ (33.9416 : ℝ) * Real.pi / 1440 ∧ (33.9416 : ℝ) * Real.pi / 1440 ≤ (0.0740490924 : ℝ) := by
  have h1 := Real.pi_gt_d6
  have h2 := Real.pi_lt_d6
  constructor
  · nlinarith
  · nlinarith

lemma sinP28 : (0.0739798309 : ℝ) ≤ Real.sin ((33.9416 : ℝ) * Real.pi / 1440) ∧ Real.sin ((33.9416 : ℝ) * Real.pi / 1440) ≤ (0.0739829866 : ℝ) := by
  have h := sin_lb_ub angP28.1 angP28.2 (by norm_num) (by norm_num)
  exact ⟨le_trans (by norm_num) h.1, le_trans h.2 (by norm_num)⟩

lemma cosP28 : (0.9972568 : ℝ) ≤ Real.cos ((33.9416 : ℝ) * Real.pi / 1440) ∧ Real.cos ((33.9416 : ℝ) * Real.pi / 1440) ≤ (0.9972599337 : ℝ) := by
  have h := cos_lb_ub angP28.1 angP28.2 (by norm_num) (by norm_num)
  exact ⟨le_trans (by norm_num) h.1, le_trans h.2 (by norm_num)⟩

lemma sinP24 : (0.1475537788 : ℝ) ≤ Real.sin ((33.9416 : ℝ) * Real.pi / 720) ∧ Real.sin ((33.9416 : ℝ) * Real.pi / 720) ≤ (0.1475605367 : ℝ) := by
  have e : ((33.9416 : ℝ) * Real.pi / 720) = 2 * ((33.9416 : ℝ) * Real.pi / 1440) := by ring
  rw [e]
  have h := sin_double_lb_ub sinP28.1 sinP28.2 cosP28.1 cosP28.2 (by norm_num) (by norm_num)
  exact ⟨le_trans (by norm_num) h.1, le_trans h.2 (by norm_num)⟩

lemma cosP24 : (0.9890530353 : ℝ) ≤ Real.cos ((33.9416 : ℝ) * Real.pi / 720) ∧ Real.cos ((33.9416 : ℝ) * Real.pi / 720) ≤ (0.9890539693 : ℝ) := by
  have e : ((33.9416 : ℝ) * Real.pi / 720) = 2 * ((33.9416 : ℝ) * Real.pi / 1440) := by ring
  rw [e]
  have h := cos_double_lb_ub sinP28.1 sinP28.2 (by norm_num)
  exact ⟨le_trans (by norm_num) h.1, le_trans h.2 (by norm_num)⟩

lemma sinP22 : (0.2918770255 : ℝ) ≤ Real.sin ((33.9416 : ℝ) * Real.pi / 360) ∧ Real.sin ((33.9416 : ℝ) * Real.pi / 360) ≤ (0.2918906691 : ℝ) := by
  have e : ((33.9416 : ℝ) * Real.pi / 360) = 2 * ((33.9416 : ℝ) * Real.pi / 720) := by ring
  rw [e]
  have h := sin_double_lb_ub sinP24.1 sinP24.2 cosP24.1 cosP24.2 (by norm_num) (by norm_num)
  exact ⟨le_trans (by norm_num) h.1, le_trans h.2 (by norm_num)⟩

lemma cosP2 : (0.8295996745 : ℝ) ≤ Real.cos ((33.9416 : ℝ) * Real.pi / 180) ∧ Real.cos ((33.9416 : ℝ) * Real.pi / 180) ≤ (0.829615604 : ℝ) := by
  have e : ((33.9416 : ℝ) * Real.pi / 180) = 2 * ((33.9416 : ℝ) * Real.pi / 360) := by ring
  rw [e]
  have h := cos_double_lb_ub sinP22.1 sinP22.2 (by norm_num)
  exact ⟨le_trans (by norm_num) h.1, le_trans h.2 (by norm_num)⟩

lemma angPhiD : (0.0584658997 : ℝ) ≤ (6.6997 : ℝ) * Real.pi / 360 ∧ (6.6997 : ℝ) * Real.pi / 360 ≤ (0.0584659184 : ℝ) := by
  have h1 := Real.pi_gt_d6
  have h2 := Real.pi_lt_d6
  constructor
  · nlinarith
  · nlinarith

lemma sinPhiD : (0.0584319824 : ℝ) ≤ Real.sin ((6.6997 : ℝ) * Real.pi / 360) ∧ Real.sin ((6.6997 : ℝ) * Real.pi / 360) ≤ (0.0584332184 : ℝ) := by
  have h := sin_lb_ub angPhiD.1 angPhiD.2 (by norm_num) (by norm_num)
  exact ⟨le_trans (by norm_num) h.1, le_trans h.2 (by norm_num)⟩

lemma sinThB4 : (0.0779090115 : ℝ) ≤ Real.sin (0.07799 : ℝ) ∧ Real.sin (0.07799 : ℝ) ≤ (0.0779128653 : ℝ) := by
  have h := sin_lb_ub (le_refl (0.07799 : ℝ)) (le_refl (0.07799 : ℝ)) (by norm_num) (by norm_num)
  exact ⟨le_trans (by norm_num) h.1, le_trans h.2 (by norm_num)⟩

lemma cosThB4 : (0.996956853 : ℝ) ≤ Real.cos (0.07799 : ℝ) ∧ Real.cos (0.07799 : ℝ) ≤ (0.9969607069 : ℝ) := by
  have h := cos_lb_ub (le_refl (0.07799 : ℝ)) (le_refl (0.07799 : ℝ)) (by norm_num) (by norm_num)
  exact ⟨le_trans (by norm_num) h.1, le_trans h.2 (by norm_num)⟩

lemma sinThB2 : (0.1553438458 : ℝ) ≤ Real.sin (0.15598 : ℝ) ∧ Real.sin (0.15598 : ℝ) ≤ (0.1553521306 : ℝ) := by
  have e : (0.15598 : ℝ) = 2 * (0.07799 : ℝ) := by norm_num
  rw [e]
  have h := sin_double_lb_ub sinThB4.1 sinThB4.2 cosThB4.1 cosThB4.2 (by norm_num) (by norm_num)
  exact ⟨le_trans (by norm_num) h.1, le_trans h.2 (by norm_num)⟩

lemma cosThB2 : (0.9878591708 : ℝ) ≤ Real.cos (0.15598 : ℝ) ∧ Real.cos (0.15598 : ℝ) ≤ (0.9878603719 : ℝ) := by
  have e : (0.15598 : ℝ) = 2 * (0.07799 : ℝ) := by norm_num
  rw [e]
  have h := cos_double_lb_ub sinThB4.1 sinThB4.2 (by norm_num)
  exact ⟨le_trans (by norm_num) h.1, le_trans h.2 (by norm_num)⟩

lemma sinThB : (0.3069156854 : ℝ) ≤ Real.sin (0.31196 : ℝ) ∧ Real.sin (0.31196 : ℝ) ≤ (0.3069324271 : ℝ) := by
  have e : (0.31196 : ℝ) = 2 * (0.15598 : ℝ) := by norm_num
  rw [e]
  have h := sin_double_lb_ub sinThB2.1 sinThB2.2 cosThB2.1 cosThB2.2 (by norm_num) (by norm_num)
  exact ⟨le_trans (by norm_num) h.1, le_trans h.2 (by norm_num)⟩

lemma sinThA4 : (0.0778442154 : ℝ) ≤ Real.sin (0.077925 : ℝ) ∧ Real.sin (0.077925 : ℝ) ≤ (0.0778480564 : ℝ) := by
  have h := sin_lb_ub (le_refl (0.077925 : ℝ)) (le_refl (0.077925 : ℝ)) (by norm_num) (by norm_num)
  exact ⟨le_trans (by norm_num) h.1, le_trans h.2 (by norm_num)⟩

lemma cosThA4 : (0.9969619267 : ℝ) ≤ Real.cos (0.077925 : ℝ) ∧ Real.cos (0.077925 : ℝ) ≤ (0.9969657677 : ℝ) := by
  have h := cos_lb_ub (le_refl (0.077925 : ℝ)) (le_refl (0.077925 : ℝ)) (by norm_num) (by norm_num)
  exact ⟨le_trans (by norm_num) h.1, le_trans h.2 (by norm_num)⟩

lemma sinThA2 : (0.1552154379 : ℝ) ≤ Real.sin (0.15585 : ℝ) ∧ Real.sin (0.15585 : ℝ) ≤ (0.1552236947 : ℝ) := by
  have e : (0.15585 : ℝ) = 2 * (0.077925 : ℝ) := by norm_num
  rw [e]
  have h := sin_double_lb_ub sinThA4.1 sinThA4.2 cosThA4.1 cosThA4.2 (by norm_num) (by norm_num)
  exact ⟨le_trans (by norm_num) h.1, le_trans h.2 (by norm_num)⟩

lemma cosThA2 : (0.9878793602 : ℝ) ≤ Real.cos (0.15585 : ℝ) ∧ Real.cos (0.15585 : ℝ) ≤ (0.9878805563 : ℝ) := by
  have e : (0.15585 : ℝ) = 2 * (0.077925 : ℝ) := by norm_num
  rw [e]
  have h := cos_double_lb_ub sinThA4.1 sinThA4.2 (by norm_num)
  exact ⟨le_trans (by norm_num) h.1, le_trans h.2 (by norm_num)⟩

lemma sinThA : (0.3066682549 : ℝ) ≤ Real.sin (0.3117 : ℝ) ∧ Real.sin (0.3117 : ℝ) ≤ (0.3066849398 : ℝ) := by
  have e : (0.3117 : ℝ) = 2 * (0.15585 : ℝ) := by norm_num
  rw [e]
  have h := sin_double_lb_ub sinThA2.1 sinThA2.2 cosThA2.1 cosThA2.2 (by norm_num) (by norm_num)
  exact ⟨le_trans (by norm_num) h.1, le_trans h.2 (by norm_num)⟩

lemma aJL_bounds : (0.0941681978 : ℝ) ≤ Real.sin ((6.6997 : ℝ) * Real.pi / 360) ^ 2 + Real.cos ((40.6413 : ℝ) * Real.pi / 180) * Real.cos ((33.9416 : ℝ) * Real.pi / 180) * Real.sin ((44.6304 : ℝ) * Real.pi / 360) ^ 2 ∧ (Real.sin ((6.6997 : ℝ) * Real.pi / 360) ^ 2 + Real.cos ((40.6413 : ℝ) * Real.pi / 180) * Real.cos ((33.9416 : ℝ) * Real.pi / 180) * Real.sin ((44.6304 : ℝ) * Real.pi / 360) ^ 2) ≤ (0.0941772655 : ℝ) := by
  obtain ⟨f1, f2⟩ := sinPhiD
  obtain ⟨l1, l2⟩ := sinLam1
  obtain ⟨p1a, p1b⟩ := cosP1
  obtain ⟨p2a, p2b⟩ := cosP2
  have hsf0 : (0 : ℝ) ≤ Real.sin ((6.6997 : ℝ) * Real.pi / 360) :=
    le_trans (by norm_num) f1
  have hsl0 : (0 : ℝ) ≤ Real.sin ((44.6304 : ℝ) * Real.pi / 360) :=
    le_trans (by norm_num) l1
  have hc10 : (0 : ℝ) ≤ Real.cos ((40.6413 : ℝ) * Real.pi / 180) :=
    le_trans (by norm_num) p1a
  have hc20 : (0 : ℝ) ≤ Real.cos ((33.9416 : ℝ) * Real.pi / 180) :=
    le_trans (by norm_num) p2a
  have hF_lo : (0.0584319824 : ℝ) ^ 2 ≤ Real.sin ((6.6997 : ℝ) * Real.pi / 360) ^ 2 :=
    pow_le_pow_left₀ (by norm_num) f1 2
  have hF_hi : Real.sin ((6.6997 : ℝ) * Real.pi / 360) ^ 2 ≤ (0.0584332184 : ℝ) ^ 2 :=
    pow_le_pow_left₀ hsf0 f2 2
  have hL_lo : (0.3796989027 : ℝ) ^ 2 ≤ Real.sin ((44.6304 : ℝ) * Real.pi / 360) ^ 2 :=
    pow_le_pow_left₀ (by norm_num) l1 2
  have hL_hi : Real.sin ((44.6304 : ℝ) * Real.pi / 360) ^ 2 ≤ (0.3797040475 : ℝ) ^ 2 :=
    pow_le_pow_left₀ hsl0 l2 2
  have hP_lo : (0.7587837934 : ℝ) * (0.8295996745 : ℝ) ≤
      Real.cos ((40.6413 : ℝ) * Real.pi / 180) * Real.cos ((33.9416 : ℝ) * Real.pi / 180) :=
    mul_le_mul p1a p2a (by norm_num) hc10
  have hP_hi : Real.cos ((40.6413 : ℝ) * Real.pi / 180) *
      Real.cos ((33.9416 : ℝ) * Real.pi / 180) ≤ (0.7588232629 : ℝ) * (0.829615604 : ℝ) :=
    mul_le_mul p1b p2b hc20 (by norm_num)
  have hPge0 : (0 : ℝ) ≤ Real.cos ((40.6413 : ℝ) * Real.pi / 180) *
      Real.cos ((33.9416 : ℝ) * Real.pi / 180) := mul_nonneg hc10 hc20
  have hT_lo : ((0.7587837934 : ℝ) * (0.8295996745 : ℝ)) * ((0.3796989027 : ℝ) ^ 2) ≤
      (Real.cos ((40.6413 : ℝ) * Real.pi / 180) * Real.cos ((33.9416 : ℝ) * Real.pi / 180)) *
        (Real.sin ((44.6304 : ℝ) * Real.pi / 360) ^ 2) :=
    mul_le_mul hP_lo hL_lo (by positivity) hPge0
  have hT_hi : (Real.cos ((40.6413 : ℝ) * Real.pi / 180) *
      Real.cos ((33.9416 : ℝ) * Real.pi / 180)) *
        (Real.sin ((44.6304 : ℝ) * Real.pi / 360) ^ 2) ≤
      ((0.7588232629 : ℝ) * (0.829615604 : ℝ)) * ((0.3797040475 : ℝ) ^ 2) :=
    mul_le_mul hP_hi hL_hi (by positivity) (by norm_num)
  constructor
  · linarith
  · linarith

/-- For `0 ≤ a < 1` the haversine's `atan2(√a, √(1−a))` equals `arcsin √a`. -/
lemma atan2_sqrt_eq_arcsin {a : ℝ} (h0 : 0 ≤ a) (h1 : a < 1) :
    atan2 (Real.sqrt a) (Real.sqrt (1 - a)) = Real.arcsin (Real.sqrt a) := by
  have hx : 0 < Real.sqrt (1 - a) := Real.sqrt_pos.mpr (by linarith)
  have hmem : Real.sqrt a ∈ Set.Ioo (-1 : ℝ) 1 := by
    refine Set.mem_Ioo.mpr ⟨by linarith [Real.sqrt_nonneg a], ?_⟩
    have h2 : Real.sqrt a < Real.sqrt 1 := Real.sqrt_lt_sqrt h0 h1
    rwa [Real.sqrt_one] at h2
  unfold atan2
  rw [if_pos hx, Real.arcsin_eq_arctan hmem, Real.sq_sqrt h0]

/-- Lower-bracket `arcsin √a` by an angle whose sine is provably below `√a`. -/
lemma arcsin_sqrt_ge {a t su : ℝ} (ht1 : -(Real.pi / 2) ≤ t) (ht2 : t ≤ Real.pi / 2)
    (hs : Real.sin t ≤ su) (hsu : 0 ≤ su) (hle : su ^ 2 ≤ a) :
    t ≤ Real.arcsin (Real.sqrt a) := by
  have h1 : su ≤ Real.sqrt a := by
    have h2 := Real.sqrt_le_sqrt hle
    rwa [Real.sqrt_sq hsu] at h2
  have h3 := Real.monotone_arcsin (le_trans hs h1)
  rwa [Real.arcsin_sin ht1 ht2] at h3

/-- Upper-bracket `arcsin √a` by an angle whose sine is provably above `√a`. -/
lemma arcsin_sqrt_le {a t sl : ℝ} (ht1 : -(Real.pi / 2) ≤ t) (ht2 : t ≤ Real.pi / 2)
    (hs : sl ≤ Real.sin t) (hle : a ≤ sl ^ 2) (hsl : 0 ≤ sl) :
    Real.arcsin (Real.sqrt a) ≤ t := by
  have h1 : Real.sqrt a ≤ sl := by
    have h2 := Real.sqrt_le_sqrt hle
    rwa [Real.sqrt_sq hsl] at h2
  have h3 := Real.monotone_arcsin (le_trans h1 hs)
  rwa [Real.arcsin_sin ht1 ht2] at h3

/-- `R·c` bounds for any `a` inside the proven interval for the JFK-LAX
haversine `a`. -/
lemma hav_c_bounds {a : ℝ} (h1 : (0.0941681978 : ℝ) ≤ a)
    (h2 : a ≤ (0.0941772655 : ℝ)) :
    (2467 : ℝ) ≤ 3958.8 * (2 * atan2 (Real.sqrt a) (Real.sqrt (1 - a))) ∧
      3958.8 * (2 * atan2 (Real.sqrt a) (Real.sqrt (1 - a))) ≤ 2469.98 := by
  have h0 : (0 : ℝ) ≤ a := by linarith
  have hlt1 : a < 1 := by linarith
  rw [atan2_sqrt_eq_arcsin h0 hlt1]
  have hd6 := Real.pi_gt_d6
  have hpos := Real.pi_pos
  have htb1 : -(Real.pi / 2) ≤ (0.31196 : ℝ) := by linarith
  have htb2 : (0.31196 : ℝ) ≤ Real.pi / 2 := by linarith
  have hta1 : -(Real.pi / 2) ≤ (0.3117 : ℝ) := by linarith
  have hta2 : (0.3117 : ℝ) ≤ Real.pi / 2 := by linarith
  have hub : Real.arcsin (Real.sqrt a) ≤ (0.31196 : ℝ) :=
    arcsin_sqrt_le htb1 htb2 sinThB.1 (le_trans h2 (by norm_num)) (by norm_num)
  have hlb : (0.3117 : ℝ) ≤ Real.arcsin (Real.sqrt a) :=
    arcsin_sqrt_ge hta1 hta2 sinThA.2 (by norm_num) (le_trans (by norm_num) h1)
  constructor
  · linarith
  · linarith

/-- The JFK-LAX haversine `a` on the table's cast coordinates equals the
canonical real-literal expression bounded by `aJL_bounds`. -/
lemma aJL_eq :
    hav_a ((40.6413 : ℚ) : ℝ) ((-73.7781 : ℚ) : ℝ)
        ((33.9416 : ℚ) : ℝ) ((-118.4085 : ℚ) : ℝ) =
      Real.sin ((6.6997 : ℝ) * Real.pi / 360) ^ 2 +
        Real.cos ((40.6413 : ℝ) * Real.pi / 180) *
          Real.cos ((33.9416 : ℝ) * Real.pi / 180) *
          Real.sin ((44.6304 : ℝ) * Real.pi / 360) ^ 2 := by
  unfold hav_a radians
  have c1 : ((40.6413 : ℚ) : ℝ) = (40.6413 : ℝ) := by norm_num
  have c2 : ((-73.7781 : ℚ) : ℝ) = (-73.7781 : ℝ) := by norm_num
  have c3 : ((33.9416 : ℚ) : ℝ) = (33.9416 : ℝ) := by norm_num
  have c4 : ((-118.4085 : ℚ) : ℝ) = (-118.4085 : ℝ) := by norm_num
  rw [c1, c2, c3, c4]
  have e1 : ((33.9416 : ℝ) - 40.6413) * Real.pi / 180 / 2 =
      -((6.6997 : ℝ) * Real.pi / 360) := by ring
  have e2 : ((-118.4085 : ℝ) - -73.7781) * Real.pi / 180 / 2 =
      -((44.6304 : ℝ) * Real.pi / 360) := by ring
  rw [e1, e2, Real.sin_neg, Real.sin_neg]
  ring

/-- Verified bounds on the haversine distance of the JFK-LAX coordinate
pair. -/
lemma hav_JL_bounds :
    (2467 : ℝ) ≤ haversine_miles ((40.6413 : ℚ) : ℝ) ((-73.7781 : ℚ) : ℝ)
        ((33.9416 : ℚ) : ℝ) ((-118.4085 : ℚ) : ℝ) ∧
      haversine_miles ((40.6413 : ℚ) : ℝ) ((-73.7781 : ℚ) : ℝ)
        ((33.9416 : ℚ) : ℝ) ((-118.4085 : ℚ) : ℝ) ≤ 2469.98 := by
  unfold haversine_miles
  rw [aJL_eq]
  exact hav_c_bounds aJL_bounds.1 aJL_bounds.2

/-- C5 counterexample: the distance the formula returns for `JFK`-`LAX` with
the spec's coordinates is below 2470 miles, so it is not within 5 miles of
2475. -/
theorem jfk_lax_not_2475 :
    ∃ r : ℝ, get_distance_miles "JFK" "LAX" = some r ∧ ¬ (|r - 2475| ≤ 5) := by
  refine ⟨_, rfl, ?_⟩
  intro hcon
  rw [abs_le] at hcon
  have h := hav_JL_bounds.2
  linarith [hcon.1]

/-- C5 (amended): `distanceMiles("JFK", "LAX")` is approximately 2470 miles
(within ±5 miles); the proven interval is `[2467, 2469.98]`. -/
theorem jfk_lax_about_2470 (r : ℝ)
    (h : get_distance_miles "JFK" "LAX" = some r) : |r - 2470| ≤ 5 := by
  have hrfl : get_distance_miles "JFK" "LAX" =
      some (haversine_miles ((40.6413 : ℚ) : ℝ) ((-73.7781 : ℚ) : ℝ)
        ((33.9416 : ℚ) : ℝ) ((-118.4085 : ℚ) : ℝ)) := rfl
  rw [hrfl] at h
  have hr : r = haversine_miles ((40.6413 : ℚ) : ℝ) ((-73.7781 : ℚ) : ℝ)
      ((33.9416 : ℚ) : ℝ) ((-118.4085 : ℚ) : ℝ) := (Option.some.inj h).symm
  obtain ⟨h1, h2⟩ := hav_JL_bounds
  rw [hr, abs_le]
  constructor
  · linarith
  · linarith

/-- Witness for C5 (amended) at the concrete pair. -/
theorem jfk_lax_about_2470_witness :
    |haversine_miles ((40.6413 : ℚ) : ℝ) ((-73.7781 : ℚ) : ℝ)
        ((33.9416 : ℚ) : ℝ) ((-118.4085 : ℚ) : ℝ) - 2470| ≤ 5 :=
  jfk_lax_about_2470 _ rfl

end FlightDelay
